import Mathlib

/-!
Verification of the HealthForge medical-report web application.

The Python sources under backend/ and rag-service/ are shallowly embedded
below. Python strings are modelled as Lean strings, with the character-level
operations (substring containment, splitting, stripping) implemented over
List Char so that every definition evaluates inside the kernel. Python
exceptions are modelled by the PyExc type and Except; a method that can raise
returns Except PyExc. External collaborators (MySQL, FAISS, the embedding
model, the Gemini LLM, hashlib, json) are passed in as explicit parameters or
modelled by their documented contracts, as noted at each definition.
-/

namespace HealthForge

/-! ## Python exception model -/

/-- Python exceptions that the embedded code can raise. attributeError carries
the type of the receiver and the missing attribute, as in
AttributeError "list object has no attribute lower". -/
inductive PyExc where
  | attributeError (recvType attrName : String)
  | valueError (msg : String)
  | jsonDecodeError
  | indexError
  | mysqlError
deriving DecidableEq, Repr

instance {ε α : Type _} [DecidableEq ε] [DecidableEq α] : DecidableEq (Except ε α)
  | .error e, .error f =>
    if h : e = f then .isTrue (by rw [h]) else .isFalse (by simp [h])
  | .error _, .ok _ => .isFalse (by simp)
  | .ok _, .error _ => .isFalse (by simp)
  | .ok a, .ok b =>
    if h : a = b then .isTrue (by rw [h]) else .isFalse (by simp [h])

/-! ## Python string primitives over List Char

These evaluate by structural recursion so that concrete claims can be settled
with decide / rfl. -/

/-- First occurrence of the (nonempty) separator sep in s: returns the text
before the occurrence and the text after it, or none when sep does not occur. -/
def splitFirst (sep : List Char) : List Char → Option (List Char × List Char)
  | [] => if sep = [] then some ([], []) else none
  | c :: cs =>
    if (c :: cs).take sep.length = sep ∧ sep ≠ [] then
      some ([], (c :: cs).drop sep.length)
    else
      match splitFirst sep cs with
      | some (pre, post) => some (c :: pre, post)
      | none => none

/-- Python sub in s, substring containment. -/
def pyIn (sub s : String) : Bool :=
  (splitFirst sub.data s.data).isSome

/-- Python s.split(sep)[0]: the text before the first occurrence of sep,
or all of s when sep does not occur. -/
def part0 (sep s : List Char) : List Char :=
  match splitFirst sep s with
  | some (pre, _) => pre
  | none => s

/-- Python s.split(sep)[1]: the text between the first and the second
occurrence of sep. The callers below only use it under a guard that sep occurs
in s, so the index-1 element exists; absent an occurrence Python would raise
IndexError, returned here as Except.error. -/
def part1 (sep s : List Char) : Except PyExc (List Char) :=
  match splitFirst sep s with
  | some (_, post) => .ok (part0 sep post)
  | none => .error .indexError

/-- Python whitespace class \s and str.strip default characters
(space, tab, newline, carriage return, vertical tab, form feed). -/
def pyIsSpace (c : Char) : Bool :=
  c = ' ' ∨ c = '\t' ∨ c = '\n' ∨ c = '\r' ∨ c = '\x0b' ∨ c = '\x0c'

/-- Python str.strip() on a character list. -/
def pyStrip (cs : List Char) : List Char :=
  ((cs.dropWhile pyIsSpace).reverse.dropWhile pyIsSpace).reverse

/-! ## backend/routes/reports.py -/

/-- Embedding of allowed_file (backend/routes/reports.py line 18).
The Python body is

  return chr(46) in filename and filename.rsplit(chr(46), 1).lower() in ALLOWED_EXTENSIONS

(the dot written here as chr(46)). When the filename contains no dot the and
short-circuits to False. When it does contain a dot, rsplit returns a Python
list and the missing [1] index means .lower() is invoked on that list, which
raises AttributeError: list object has no attribute lower. -/
def allowed_file (filename : String) : Except PyExc Bool :=
  if pyIn "." filename then
    .error (.attributeError "list" "lower")
  else
    .ok false

/-- Outcome of the request-validation prefix of upload_report. -/
inductive UploadOutcome where
  | badRequest (msg : String)
  | serverError (msg : String)
  | proceeds
deriving DecidableEq, Repr

/-- Embedding of the validation prefix of upload_report
(backend/routes/reports.py lines 40-51): the file-present and empty-filename
checks, then the allowed_file check. The whole handler body sits in a
try/except that turns any raised exception into a 500 response with error
message Error processing report, so an exception from allowed_file becomes
that 500. filePresent models the key file being in request.files. -/
def upload_report_validate (filePresent : Bool) (filename : String) : UploadOutcome :=
  if !filePresent then .badRequest "No file provided"
  else if filename = "" then .badRequest "No file selected"
  else
    match allowed_file filename with
    | .error _ => .serverError "Error processing report"
    | .ok true => .proceeds
    | .ok false => .badRequest "Only PDF files allowed"

/-! ## Markdown-fence stripping and medical-info extraction

backend/utils/rag_processor.py (RAGProcessor.extract_medical_info) and
rag-service/services/medical_extractor.py (MedicalExtractor.extract_info).
The Gemini call is external: its behaviour is the llm parameter, either the
response content (ok) or a raised exception (error). json.loads is external:
it is the jsonLoads parameter, returning some parsed-object or none for a
JSONDecodeError. A parsed JSON object is modelled as a key-value list. -/

/-- Model of a JSON object returned by json.loads. -/
abbrev JsonDict := List (String × String)

/-- Fence stripping of RAGProcessor.extract_medical_info
(backend/utils/rag_processor.py lines 116-119):

  if f3j in response_text:  response_text = response_text.split(f3j).split(f3)
  elif f3 in response_text: response_text = response_text.split(f3).split(f3)

where f3 is three backticks and f3j is three backticks followed by json.
split on a string returns a Python list; the missing index between the two
split calls means .split is invoked on that list, raising
AttributeError: list object has no attribute split. Without a fence the text
passes through unchanged. -/
def backendClean (t : String) : Except PyExc String :=
  if pyIn "```json" t then .error (.attributeError "list" "split")
  else if pyIn "```" t then .error (.attributeError "list" "split")
  else .ok t

/-- Fence stripping of MedicalExtractor.extract_info
(rag-service/services/medical_extractor.py lines 44-47):

  if f3j in response_text:  response_text = response_text.split(f3j)[1].split(f3)[0]
  elif f3 in response_text: response_text = response_text.split(f3)[1].split(f3)[0]
-/
def ragClean (t : String) : Except PyExc String :=
  if pyIn "```json" t then do
    let p1 ← part1 "```json".data t.data
    .ok ⟨part0 "```".data p1⟩
  else if pyIn "```" t then do
    let p1 ← part1 "```".data t.data
    .ok ⟨part0 "```".data p1⟩
  else .ok t

/-- The try-block body of RAGProcessor.extract_medical_info
(backend/utils/rag_processor.py lines 106-123): invoke the model, strip
fences, then json.loads(response_text.strip()). -/
def backendExtractBody (jsonLoads : String → Option JsonDict)
    (llm : Except PyExc String) : Except PyExc JsonDict := do
  let content ← llm
  let cleaned ← backendClean content
  match jsonLoads ⟨pyStrip cleaned.data⟩ with
  | some d => .ok d
  | none => .error .jsonDecodeError

/-- RAGProcessor.extract_medical_info (backend/utils/rag_processor.py lines
74-127). The except Exception handler catches every exception from the body
and returns the empty dict, so the method itself never raises: its result is
always ok. -/
def RAGProcessor.extract_medical_info (jsonLoads : String → Option JsonDict)
    (llm : Except PyExc String) : Except PyExc JsonDict :=
  match backendExtractBody jsonLoads llm with
  | .ok d => .ok d
  | .error _ => .ok []

/-- The try-block body of MedicalExtractor.extract_info
(rag-service/services/medical_extractor.py lines 39-49). -/
def ragExtractBody (jsonLoads : String → Option JsonDict)
    (llm : Except PyExc String) : Except PyExc JsonDict := do
  let content ← llm
  let cleaned ← ragClean content
  match jsonLoads ⟨pyStrip cleaned.data⟩ with
  | some d => .ok d
  | none => .error .jsonDecodeError

/-- MedicalExtractor.extract_info (rag-service/services/medical_extractor.py
lines 13-52), with the same except Exception ... return empty-dict shape as
the backend version. -/
def MedicalExtractor.extract_info (jsonLoads : String → Option JsonDict)
    (llm : Except PyExc String) : Except PyExc JsonDict :=
  match ragExtractBody jsonLoads llm with
  | .ok d => .ok d
  | .error _ => .ok []

/-! ## backend/utils/pdf_processor.py -/

/-- The page marker prepended to the text of page n (0-based here, printed
1-based): a newline, the marker line, a newline, then the page text. -/
def pageBlock (n : Nat) (p : List Char) : List Char :=
  "\n--- Page ".data ++ Nat.toDigits 10 (n + 1) ++ " ---\n".data ++ p

/-- The accumulation loop of PDFProcessor.extract_text
(backend/utils/pdf_processor.py lines 23-31): pages whose extracted text is
falsy (empty) are skipped, the others are appended with their marker. The page
texts are what the external PyPDF2 page.extract_text() calls returned. -/
def buildText : Nat → List (List Char) → List Char
  | _, [] => []
  | n, p :: ps => (if p ≠ [] then pageBlock n p else []) ++ buildText (n + 1) ps

/-- PDFProcessor.extract_text (backend/utils/pdf_processor.py lines 10-41):
raises ValueError when the accumulated text strips to empty, otherwise returns
the text and the uploaded file name. The except clause at lines 39-41 logs and
re-raises, so the ValueError propagates. -/
def PDFProcessor.extract_text (pages : List (List Char)) (filename : String) :
    Except PyExc (List Char × String) :=
  let text := buildText 0 pages
  if pyStrip text = [] then .error (.valueError "No readable text found in PDF")
  else .ok (text, filename)

/-! ## The RAG retrieval pipeline

backend/utils/rag_processor.py RAGProcessor.answer_question and
rag-service/services/rag_engine.py RAGEngine.query. The embedding model and
the FAISS index are external collaborators: a persisted index is modelled as
the list of chunks it stores, and FAISS similarity_search(question, k) by its
contract, the k stored chunks most similar to the question, ranked by a
similarity score. The score and the LLM answer chain are parameters. -/

/-- Record of one invocation of the load_qa_chain answer chain: the documents
and the question handed to it. -/
structure ChainCall where
  docs : List String
  question : String
deriving DecidableEq, Repr

/-- Contract model of FAISS similarity_search: the chunks sorted by descending
similarity score, truncated to the top k. -/
def similaritySearch (score : String → ℚ) (chunks : List String) (k : Nat) :
    List String :=
  (chunks.insertionSort (fun a b => score b ≤ score a)).take k

/-- RAGProcessor.answer_question (backend/utils/rag_processor.py lines
200-230): load the persisted vector store (load is its outcome; on failure
load_vector_store re-raises and so does answer_question), retrieve with k = 5,
then invoke the chain on exactly those documents. The returned pair records
the chain invocation and the answer text. -/
def RAGProcessor.answer_question (score : String → String → ℚ)
    (question : String) (load : Except PyExc (List String))
    (chain : List String → String → String) :
    Except PyExc (ChainCall × String) := do
  let chunks ← load
  let docs := similaritySearch (score question) chunks 5
  .ok (⟨docs, question⟩, chain docs question)

/-- RAGEngine.query (rag-service/services/rag_engine.py lines 40-81): none for
the index means the os.path.exists check failed; otherwise retrieve with
k = 3, answer the no-documents case without calling the chain, else invoke
the chain on exactly the retrieved documents. The first component records the
chain invocation, if any. -/
def RAGEngine.query (score : String → String → ℚ) (question : String)
    (index : Option (List String)) (chain : List String → String → String) :
    Option ChainCall × String :=
  match index with
  | none => (none, "Error: Report index not found. Please process the report first.")
  | some chunks =>
    let docs := similaritySearch (score question) chunks 3
    if docs = [] then (none, "No relevant information found in the report.")
    else (some ⟨docs, question⟩, chain docs question)

/-! ## backend/routes/users.py: validation helpers and patient registration

The validators call Python re.match with anchored patterns. Python regex
semantics are embedded faithfully: the dollar anchor matches at the end of the
string or just before a single newline at the end of the string, so each
validator also accepts its core pattern followed by one trailing newline. -/

/-- Runs the core full-string matcher under Python dollar-anchor semantics:
the pattern caret-core-dollar matches s when core matches all of s, or when s
ends in a newline and core matches all of s but that final newline. -/
def pyFullMatchNL (core : List Char → Bool) (s : String) : Bool :=
  core s.data ||
    (match s.data.getLast? with
     | some '\n' => core s.data.dropLast
     | _ => false)

/-- Core of the phone pattern: ten digit characters. -/
def phoneCore (cs : List Char) : Bool :=
  cs.length == 10 && cs.all Char.isDigit

/-- Core of the pin pattern: six digit characters. -/
def pinCore (cs : List Char) : Bool :=
  cs.length == 6 && cs.all Char.isDigit

/-- validate_phone (backend/routes/users.py lines 16-18). -/
def validate_phone (s : String) : Bool := pyFullMatchNL phoneCore s

/-- validate_pin (backend/routes/users.py lines 27-29). -/
def validate_pin (s : String) : Bool := pyFullMatchNL pinCore s

/-- Characters of the local-part class of the email pattern. -/
def isLocalChar (c : Char) : Bool :=
  c.isAlpha || c.isDigit || c = '.' || c = '_' || c = '%' || c = '+' || c = '-'

/-- Characters of the domain class of the email pattern. -/
def isDomainChar (c : Char) : Bool :=
  c.isAlpha || c.isDigit || c = '.' || c = '-'

/-- Core of the email pattern, local+ at domain+ dot alpha-with-2-or-more.
A match forces exactly one at sign (no class contains it) and forces the
explicit dot to be the last dot (the final alphabetic run contains none), so
matching is: split at the at sign, split the domain at its last dot, and check
the three runs against their classes. -/
def emailCore (cs : List Char) : Bool :=
  match splitFirst ['@'] cs with
  | none => false
  | some (lp, dm) =>
    !lp.isEmpty && lp.all isLocalChar && !(splitFirst ['@'] dm).isSome &&
      (match splitFirst ['.'] dm.reverse with
       | none => false
       | some (tldRev, preRev) =>
         let tld := tldRev.reverse
         let pre := preRev.reverse
         !pre.isEmpty && pre.all isDomainChar &&
           2 ≤ tld.length && tld.all Char.isAlpha)

/-- validate_email (backend/routes/users.py lines 21-24). -/
def validate_email (s : String) : Bool := pyFullMatchNL emailCore s

/-- Core of the name pattern, one or more alphabetic or whitespace characters.
The newline is itself in the whitespace class, so the dollar-anchor newline
case collapses into the core. -/
def nameMatch (cs : List Char) : Bool :=
  !cs.isEmpty && cs.all (fun c => c.isAlpha || pyIsSpace c)

/-- A JSON request body for POST /api/patients/register; none models an absent
field. -/
structure RegisterRequest where
  firstName : Option String
  lastName : Option String
  email : Option String
  phone : Option String
  dateOfBirth : Option String
  pin : Option String

/-- The SQL statements the registration route can issue, in the order the
route issues them: the patient_exists SELECT, then inside
create_email_verification the DELETE of stale verifications and the INSERT of
the new one. -/
inductive SqlStmt where
  | selectPatientByEmail (email : String)
  | deleteVerificationsFor (email : String)
  | insertVerification (email : String)
deriving DecidableEq, Repr

/-- Outcomes of the external steps the route performs after validation:
whether a patient with the email exists, whether create_email_verification
returns an id, and whether the verification email sends. -/
structure BackendOracle where
  patientExists : Bool
  verificationCreated : Bool
  emailSent : Bool

/-- Python falsiness of data.get(field) for a string field: absent or empty. -/
def isBlank : Option String → Bool
  | none => true
  | some s => decide (s = "")

/-- Validity of an optional request field under a validator, the way the route
sees it: an absent field never reaches the validator (it fails the required
check first). -/
def optionValid (v : Option String) (f : String → Bool) : Bool :=
  match v with
  | some s => f s
  | none => false

/-- register_patient (backend/routes/users.py lines 62-184): the required
check over the six fields, the two name checks, the email, phone and pin
checks, then the database and email steps. The result is the HTTP status
paired with the list of SQL statements the route ran. -/
def register_patient (req : RegisterRequest) (db : BackendOracle) :
    Nat × List SqlStmt :=
  if isBlank req.firstName then (400, [])
  else if isBlank req.lastName then (400, [])
  else if isBlank req.email then (400, [])
  else if isBlank req.phone then (400, [])
  else if isBlank req.dateOfBirth then (400, [])
  else if isBlank req.pin then (400, [])
  else if (req.firstName.getD "").data.length < 2 ||
      !nameMatch (req.firstName.getD "").data then (400, [])
  else if (req.lastName.getD "").data.length < 2 ||
      !nameMatch (req.lastName.getD "").data then (400, [])
  else if !validate_email (req.email.getD "") then (400, [])
  else if !validate_phone (req.phone.getD "") then (400, [])
  else if !validate_pin (req.pin.getD "") then (400, [])
  else if db.patientExists then (409, [.selectPatientByEmail (req.email.getD "")])
  else if !db.verificationCreated then
    (500, [.selectPatientByEmail (req.email.getD ""),
      .deleteVerificationsFor (req.email.getD "")])
  else if db.emailSent then
    (200, [.selectPatientByEmail (req.email.getD ""),
      .deleteVerificationsFor (req.email.getD ""),
      .insertVerification (req.email.getD "")])
  else
    (500, [.selectPatientByEmail (req.email.getD ""),
      .deleteVerificationsFor (req.email.getD ""),
      .insertVerification (req.email.getD "")])

/-! ## backend/db_config.py: rows, credential checks -/

/-- A row returned by a SELECT-star query through a dictionary cursor: the
column-name to value map of the row. Column values are modelled as strings,
with TRUE for a set boolean column. -/
abbrev Row := List (String × String)

/-- Python dict.get(key) on a row: the value at the key, none when absent. -/
def dictGet (k : String) (d : Row) : Option String :=
  (d.find? (fun kv => decide (kv.1 = k))).map (fun kv => kv.2)

/-- Python dict.pop(key, None) on a row: the row without the key. -/
def dictPop (k : String) (d : Row) : Row :=
  d.filter (fun kv => decide (kv.1 ≠ k))

/-- get_patient_by_email (backend/db_config.py lines 369-387): the first
patients row with the email and is_active TRUE. -/
def UserDB.get_patient_by_email (patients : List Row) (email : String) :
    Option Row :=
  patients.find? (fun r =>
    decide (dictGet "email" r = some email) &&
      decide (dictGet "is_active" r = some "TRUE"))

/-- get_doctor_by_license_id (backend/db_config.py lines 517-534): the first
doctors row with the license id and is_active TRUE. -/
def UserDB.get_doctor_by_license_id (doctors : List Row) (licenseId : String) :
    Option Row :=
  doctors.find? (fun r =>
    decide (dictGet "license_id" r = some licenseId) &&
      decide (dictGet "is_active" r = some "TRUE"))

/-- verify_patient_pin (backend/db_config.py lines 407-433). hashlib.sha256
hexdigest is external and is the hash parameter. On a stored-hash match the
patient row is returned with the pin popped. -/
def UserDB.verify_patient_pin (hash : String → String) (patients : List Row)
    (email pin : String) : Option Row :=
  match UserDB.get_patient_by_email patients email with
  | none => none
  | some patient =>
    if dictGet "pin" patient = some (hash pin) then
      some (dictPop "pin" patient)
    else
      none

/-- verify_doctor_password (backend/db_config.py lines 555-581), the doctor
counterpart of verify_patient_pin. -/
def UserDB.verify_doctor_password (hash : String → String) (doctors : List Row)
    (licenseId password : String) : Option Row :=
  match UserDB.get_doctor_by_license_id doctors licenseId with
  | none => none
  | some doctor =>
    if dictGet "password" doctor = some (hash password) then
      some (dictPop "password" doctor)
    else
      none

/-! ## backend/db_config.py: email verification

Time is modelled in minutes as a Nat. -/

/-- A row of the email_verifications table. -/
structure EmailVerification where
  id : String
  email : String
  code : String
  pin : String
  expiresAt : Nat
  verified : Bool
  attempts : Nat
deriving DecidableEq, Repr

/-- create_email_verification (backend/db_config.py lines 767-826): hash the
pin, set the expiry ten minutes from now, DELETE any existing verification
rows for the email, INSERT the new row (attempts start at zero, unverified).
vid is the fresh uuid. -/
def UserDB.create_email_verification (hash : String → String) (vid : String)
    (now : Nat) (email code pin : String) (st : List EmailVerification) :
    List EmailVerification :=
  st.filter (fun v => decide (v.email ≠ email)) ++
    [⟨vid, email, code, hash pin, now + 10, false, 0⟩]

/-- The WHERE clause of the SELECT in verify_email_code: email and code
match, the row is unexpired, unverified, and has fewer than five attempts. -/
def verifyMatch (email code : String) (now : Nat) (v : EmailVerification) : Bool :=
  decide (v.email = email) && decide (v.code = code) &&
    decide (now < v.expiresAt) && !v.verified && decide (v.attempts < 5)

/-- verify_email_code (backend/db_config.py lines 828-874): fetch the first
row passing verifyMatch; if found, mark it verified and return it; otherwise
increment the attempt counter of every unverified row for the email and
return None. Returns the fetched row (if any) and the table after the
UPDATE. -/
def UserDB.verify_email_code (email code : String) (now : Nat)
    (st : List EmailVerification) :
    Option EmailVerification × List EmailVerification :=
  match st.find? (verifyMatch email code now) with
  | some v =>
    (some v, st.map (fun w => if w.id = v.id then {w with verified := true} else w))
  | none =>
    (none, st.map (fun w =>
      if w.email = email ∧ w.verified = false then
        {w with attempts := w.attempts + 1}
      else w))

/-! ## backend/db_config.py: consents and assignments -/

/-- A row of the consents table (the columns the embedded queries touch). -/
structure Consent where
  id : String
  patientId : String
  doctorId : String
  active : Bool
deriving DecidableEq, Repr

/-- A row of the assignments table. -/
structure Assignment where
  id : String
  doctorId : String
  patientId : String
  assignedAt : Nat
deriving DecidableEq, Repr

/-- The tables touched by the consent and assignment queries. -/
structure ConsentState where
  consents : List Consent
  assignments : List Assignment
deriving DecidableEq, Repr

/-- revoke_consent (backend/db_config.py lines 1444-1461): UPDATE consents
SET active = FALSE WHERE id = consent-id, then report whether a row changed
(the connector counts changed rows, so an already-inactive consent reports
False). -/
def PatientReportDB.revoke_consent (st : ConsentState) (cid : String) :
    ConsentState × Bool :=
  ({ st with
      consents := st.consents.map (fun c =>
        if c.id = cid then {c with active := false} else c) },
    st.consents.any (fun c => decide (c.id = cid) && c.active))

/-- A row produced by the get_assignments_by_doctor_id SELECT. The LEFT JOIN
on patients only enriches the row with patient display fields, which none of
the embedded claims touch; the assignment and join keys are kept. -/
structure AssignmentRow where
  id : String
  doctorId : String
  patientId : String
  assignedAt : Nat
deriving DecidableEq, Repr

/-- get_assignments_by_doctor_id (backend/db_config.py lines 1512-1550): the
assignments of the doctor INNER JOINed with the active consents of the same
doctor-patient pair, one output row per matching consent, exactly as the SQL
join multiplies rows. The ORDER BY assigned_at DESC only permutes the output
and is omitted; the claims are about membership. -/
def PatientReportDB.get_assignments_by_doctor_id (st : ConsentState)
    (doctorId : String) : List AssignmentRow :=
  (st.assignments.filter (fun a => decide (a.doctorId = doctorId))).flatMap
    (fun a =>
      (st.consents.filter (fun c =>
        decide (c.doctorId = a.doctorId) && decide (c.patientId = a.patientId) &&
          c.active)).map
        (fun _ => ⟨a.id, a.doctorId, a.patientId, a.assignedAt⟩))

/-! ## backend/db_config.py: delete_patient -/

/-- A row of the patients table (the columns delete_patient touches). -/
structure PatientRow where
  id : String
  email : String
deriving DecidableEq, Repr

/-- A row of the patient_reports table. -/
structure PatientReportRow where
  id : String
  patientId : String
deriving DecidableEq, Repr

/-- The relational store as delete_patient sees it. -/
structure HealthDB where
  patients : List PatientRow
  patient_reports : List PatientReportRow
  consents : List Consent
  assignments : List Assignment
  email_verifications : List EmailVerification
deriving DecidableEq, Repr

/-- delete_patient (backend/db_config.py lines 966-1013). The six SQL
statements and the final commit run in one transaction; fail gives the
failure oracle of each step in order (0 the patient_reports DELETE, 1 the
consents DELETE, 2 the assignments DELETE, 3 the email SELECT, 4 the
email_verifications DELETE, which only runs when the SELECT found the
patient, 5 the patients DELETE, 6 the COMMIT). A MySQL Error at any step is
caught, the transaction rolls back leaving the store unchanged, and False is
returned. On success the return value is rowcount greater than zero of the
last DELETE, i.e. whether a patients row with the id existed. -/
def UserDB.delete_patient (db : HealthDB) (pid : String) (fail : Nat → Bool) :
    HealthDB × Bool :=
  if fail 0 then (db, false) else
  if fail 1 then (db, false) else
  if fail 2 then (db, false) else
  if fail 3 then (db, false) else
  if ((db.patients.find? (fun p => decide (p.id = pid))).isSome && fail 4) then
    (db, false) else
  if fail 5 then (db, false) else
  if fail 6 then (db, false) else
  ({ patients := db.patients.filter (fun p => decide (p.id ≠ pid)),
     patient_reports := db.patient_reports.filter (fun r => decide (r.patientId ≠ pid)),
     consents := db.consents.filter (fun c => decide (c.patientId ≠ pid)),
     assignments := db.assignments.filter (fun a => decide (a.patientId ≠ pid)),
     email_verifications :=
       match db.patients.find? (fun p => decide (p.id = pid)) with
       | some p => db.email_verifications.filter (fun v => decide (v.email ≠ p.email))
       | none => db.email_verifications },
   0 < (db.patients.filter (fun p => decide (p.id = pid))).length)

/-! ## Concrete instances used in closed theorems -/

/-- Registration request whose phone field is ten digits followed by a
newline: eleven characters, accepted by the Python pattern. -/
def newlinePhoneReq : RegisterRequest :=
  ⟨some "John", some "Doe", some "john@example.com", some "1234567890\n",
    some "1990-05-15", some "123456"⟩

/-- Registration request whose phone field is five digits. -/
def shortPhoneReq : RegisterRequest :=
  ⟨some "John", some "Doe", some "john@example.com", some "12345",
    some "1990-05-15", some "123456"⟩

/-- Backend where the email is new, the verification insert succeeds and the
email sends. -/
def happyOracle : BackendOracle := ⟨false, true, true⟩

/-- Hash stand-in used in closed theorems. -/
def exHash : String → String := fun s => s ++ "#"

/-- Patients table used in closed theorems. -/
def exPatients : List Row :=
  [[("id", "p1"), ("email", "a@b.co"), ("is_active", "TRUE"), ("pin", "123456#")]]

/-- Doctors table used in closed theorems. -/
def exDoctors : List Row :=
  [[("id", "d1"), ("license_id", "LIC1"), ("is_active", "TRUE"),
    ("password", "Wachtwoord1#")]]

/-- Concrete LLM response wrapped in a json markdown fence. -/
def fencedResponse : String := "```json\nx\n```"

/-- Concrete stand-in for json.loads: parses the body of fencedResponse to a
one-entry object and rejects everything else. -/
def jsonLoadsEx : String → Option JsonDict :=
  fun s => if s = "x" then some [("diagnosis", "flu")] else none

/-- Similarity score used in closed theorems: rates chunk b above chunk a. -/
def exScore : String → String → ℚ := fun _ c => if c = "b" then 2 else 1

/-- Chunk list used in closed theorems. -/
def exChunks : List String := ["a", "b"]

/-- Answer chain used in closed theorems: echoes the question. -/
def exChain : List String → String → String := fun _ q => q

/-- Pending verification used in closed theorems: created for e at minute 0,
code 111222, five failed attempts already recorded. -/
def exExhausted : List EmailVerification :=
  [⟨"v1", "e@x.co", "111222", "hp", 10, false, 5⟩]

/-- Consent state with two active consents for the same doctor-patient pair
and one assignment, used in the C9 counterexample. -/
def dupConsentState : ConsentState :=
  ⟨[⟨"c1", "p1", "d1", true⟩, ⟨"c2", "p1", "d1", true⟩], [⟨"a1", "d1", "p1", 0⟩]⟩

/-- Consent state with a single active consent and one assignment. -/
def soloConsentState : ConsentState :=
  ⟨[⟨"c1", "p1", "d1", true⟩], [⟨"a1", "d1", "p1", 0⟩]⟩

/-- Failure oracle where no database step fails. -/
def exNoFail : Nat → Bool := fun _ => false

/-- Store used in the C5 closed instance: one patient with a report, a
consent, an assignment and a stale verification row. -/
def exDb5 : HealthDB :=
  { patients := [⟨"p1", "a@b.co"⟩],
    patient_reports := [⟨"r1", "p1"⟩],
    consents := [⟨"c1", "p1", "d1", true⟩],
    assignments := [⟨"a1", "d1", "p1", 0⟩],
    email_verifications := [⟨"v1", "a@b.co", "111222", "hp", 10, false, 0⟩] }

/-! ## Theorems -/

/-- similaritySearch selects a genuine top-k: the retrieved chunks plus a
remainder permute the stored chunks, exactly min k n chunks are retrieved, and
every retrieved chunk scores at least every remainder chunk. -/
theorem similaritySearch_topk (s : String → ℚ) (chunks : List String) (k : Nat) :
    ∃ rest, (similaritySearch s chunks k ++ rest).Perm chunks ∧
      (similaritySearch s chunks k).length = min k chunks.length ∧
      ∀ a ∈ similaritySearch s chunks k, ∀ b ∈ rest, s b ≤ s a := by
  haveI : IsTotal String (fun a b => s b ≤ s a) := ⟨fun a b => le_total (s b) (s a)⟩
  haveI : IsTrans String (fun a b => s b ≤ s a) := ⟨fun a b c hab hbc => le_trans hbc hab⟩
  refine ⟨(chunks.insertionSort (fun a b => s b ≤ s a)).drop k, ?_, ?_, ?_⟩ <;>
    unfold similaritySearch
  · rw [List.take_append_drop]
    exact List.perm_insertionSort _ chunks
  · rw [List.length_take, List.length_insertionSort]
  · have hs := List.sorted_insertionSort (fun a b => s b ≤ s a) chunks
    rw [List.Sorted, ← List.take_append_drop k
      (chunks.insertionSort (fun a b => s b ≤ s a)), List.pairwise_append] at hs
    intro a ha b hb
    exact hs.2.2 a ha b hb

/-- C1: the claim says allowed_file accepts filenames ending in .pdf and the
upload proceeds. In the code, allowed_file calls .lower() on the list returned
by rsplit (the [1] index is missing), so for report.pdf it raises
AttributeError and the handler answers 500 Error processing report instead of
processing the upload. -/
theorem allowed_file_raises_on_pdf_filename :
    allowed_file "report.pdf" = .error (.attributeError "list" "lower") ∧
    upload_report_validate true "report.pdf" = .serverError "Error processing report" := by
  decide

/-- C2: the two fence-stripping implementations disagree on a fenced LLM
response. The backend raises AttributeError (so its extractor falls back to
the empty dict) while the rag-service strips the fence and parses the body. -/
theorem fence_stripping_diverges :
    backendClean fencedResponse = .error (.attributeError "list" "split") ∧
    ragClean fencedResponse = .ok "\nx\n" ∧
    RAGProcessor.extract_medical_info jsonLoadsEx (.ok fencedResponse) = .ok [] ∧
    MedicalExtractor.extract_info jsonLoadsEx (.ok fencedResponse) =
      .ok [("diagnosis", "flu")] := by
  decide

/-- C3: for every json.loads behaviour and every LLM behaviour (raised
exception or any response text), both extractors return ok with either the
dict parsed by the try-block body or the empty dict; no exception escapes. -/
theorem extractors_never_propagate_exceptions :
    ∀ (jsonLoads : String → Option JsonDict) (llm : Except PyExc String),
      (∃ d, RAGProcessor.extract_medical_info jsonLoads llm = .ok d ∧
        (backendExtractBody jsonLoads llm = .ok d ∨ d = [])) ∧
      (∃ d, MedicalExtractor.extract_info jsonLoads llm = .ok d ∧
        (ragExtractBody jsonLoads llm = .ok d ∨ d = [])) := by
  intro jsonLoads llm
  constructor
  · cases h : backendExtractBody jsonLoads llm with
    | ok d => exact ⟨d, by simp [RAGProcessor.extract_medical_info, h], .inl rfl⟩
    | error e => exact ⟨[], by simp [RAGProcessor.extract_medical_info, h], .inr rfl⟩
  · cases h : ragExtractBody jsonLoads llm with
    | ok d => exact ⟨d, by simp [MedicalExtractor.extract_info, h], .inl rfl⟩
    | error e => exact ⟨[], by simp [MedicalExtractor.extract_info, h], .inr rfl⟩

/-- C6: PDFProcessor.extract_text raises ValueError exactly when the
accumulated page text strips to empty, and otherwise returns the accumulated
text with its page markers together with the uploaded file name. -/
theorem extract_text_valueerror_iff_blank :
    ∀ (pages : List (List Char)) (filename : String),
      (PDFProcessor.extract_text pages filename =
          .error (.valueError "No readable text found in PDF") ↔
        pyStrip (buildText 0 pages) = []) ∧
      (pyStrip (buildText 0 pages) ≠ [] →
        PDFProcessor.extract_text pages filename = .ok (buildText 0 pages, filename)) := by
  intro pages filename
  by_cases h : pyStrip (buildText 0 pages) = [] <;>
    simp [PDFProcessor.extract_text, h]

/-- Closed instance of C6 at a one-page PDF with text r, discharging the
nonempty-text hypothesis. -/
theorem extract_text_valueerror_iff_blank_witness :
    pyStrip (buildText 0 [['r']]) ≠ [] ∧
    PDFProcessor.extract_text [['r']] "scan.pdf" =
      .ok (buildText 0 [['r']], "scan.pdf") :=
  ⟨by decide, (extract_text_valueerror_iff_blank [['r']] "scan.pdf").2 (by decide)⟩

/-- C4: the backend chain receives exactly the 5 chunks most similar to the
question, the rag-service chain exactly the 3 most similar, and the retrieval
is a genuine top-k selection over the persisted chunks. -/
theorem answer_chain_receives_topk :
    ∀ (score : String → String → ℚ) (question : String) (chunks : List String)
      (chain : List String → String → String),
      RAGProcessor.answer_question score question (.ok chunks) chain =
        .ok (⟨similaritySearch (score question) chunks 5, question⟩,
          chain (similaritySearch (score question) chunks 5) question) ∧
      (similaritySearch (score question) chunks 3 ≠ [] →
        RAGEngine.query score question (some chunks) chain =
          (some ⟨similaritySearch (score question) chunks 3, question⟩,
            chain (similaritySearch (score question) chunks 3) question)) ∧
      (∀ k, ∃ rest,
        (similaritySearch (score question) chunks k ++ rest).Perm chunks ∧
        (similaritySearch (score question) chunks k).length = min k chunks.length ∧
        ∀ a ∈ similaritySearch (score question) chunks k, ∀ b ∈ rest,
          score question b ≤ score question a) := by
  intro score question chunks chain
  refine ⟨rfl, ?_, fun k => similaritySearch_topk (score question) chunks k⟩
  intro h
  simp [RAGEngine.query, h]

/-- Closed instance of C4 at a two-chunk store, discharging the
nonempty-retrieval hypothesis: the rag-service chain is invoked on the two
chunks ranked by score. -/
theorem answer_chain_receives_topk_witness :
    similaritySearch (exScore "q") exChunks 3 ≠ [] ∧
    RAGEngine.query exScore "q" (some exChunks) exChain =
      (some ⟨["b", "a"], "q"⟩, "q") :=
  ⟨by decide,
    ((answer_chain_receives_topk exScore "q" exChunks exChain).2.1 (by decide)).trans
      (by decide)⟩

/-- Helper: a field that passed both the required check and its validation
check is provided and valid. -/
theorem optionValid_of (v : Option String) (f : String → Bool)
    (hb : ¬ isBlank v = true) (hv : ¬ (!f (v.getD "")) = true) :
    optionValid v f = true := by
  cases v with
  | none => simp [isBlank] at hb
  | some s => simpa [optionValid] using hv

/-- Helper: every run of register_patient either answers 400 with no SQL run,
or its phone, pin and email fields were provided and passed their
validators. -/
theorem register_patient_validates (req : RegisterRequest) (db : BackendOracle) :
    register_patient req db = (400, []) ∨
      (optionValid req.phone validate_phone = true ∧
       optionValid req.pin validate_pin = true ∧
       optionValid req.email validate_email = true) := by
  unfold register_patient
  by_cases h1 : isBlank req.firstName = true
  · rw [if_pos h1]; exact .inl rfl
  rw [if_neg h1]
  by_cases h2 : isBlank req.lastName = true
  · rw [if_pos h2]; exact .inl rfl
  rw [if_neg h2]
  by_cases h3 : isBlank req.email = true
  · rw [if_pos h3]; exact .inl rfl
  rw [if_neg h3]
  by_cases h4 : isBlank req.phone = true
  · rw [if_pos h4]; exact .inl rfl
  rw [if_neg h4]
  by_cases h5 : isBlank req.dateOfBirth = true
  · rw [if_pos h5]; exact .inl rfl
  rw [if_neg h5]
  by_cases h6 : isBlank req.pin = true
  · rw [if_pos h6]; exact .inl rfl
  rw [if_neg h6]
  by_cases h7 : (decide ((req.firstName.getD "").data.length < 2) ||
      !nameMatch (req.firstName.getD "").data) = true
  · rw [if_pos h7]; exact .inl rfl
  rw [if_neg h7]
  by_cases h8 : (decide ((req.lastName.getD "").data.length < 2) ||
      !nameMatch (req.lastName.getD "").data) = true
  · rw [if_pos h8]; exact .inl rfl
  rw [if_neg h8]
  by_cases h9 : (!validate_email (req.email.getD "")) = true
  · rw [if_pos h9]; exact .inl rfl
  rw [if_neg h9]
  by_cases h10 : (!validate_phone (req.phone.getD "")) = true
  · rw [if_pos h10]; exact .inl rfl
  rw [if_neg h10]
  by_cases h11 : (!validate_pin (req.pin.getD "")) = true
  · rw [if_pos h11]; exact .inl rfl
  rw [if_neg h11]
  exact .inr ⟨optionValid_of _ _ h4 h10, optionValid_of _ _ h6 h11,
    optionValid_of _ _ h3 h9⟩

/-- C7 counterexample: a phone of ten digits followed by a newline is not
exactly ten digits, yet Python's dollar anchor accepts it, the route answers
200 and runs SQL statements. -/
theorem register_accepts_newline_phone :
    phoneCore "1234567890\n".data = false ∧
    register_patient newlinePhoneReq happyOracle =
      (200, [.selectPatientByEmail "john@example.com",
        .deleteVerificationsFor "john@example.com",
        .insertVerification "john@example.com"]) := by
  decide

/-- C7 amended: whenever the phone, pin or email field fails its Python
pattern (exact digits or the email pattern, each optionally followed by one
trailing newline), the route answers 400 and runs no SQL statement. -/
theorem register_rejects_invalid_input :
    ∀ (req : RegisterRequest) (db : BackendOracle),
      (optionValid req.phone validate_phone = false ∨
       optionValid req.pin validate_pin = false ∨
       optionValid req.email validate_email = false) →
      register_patient req db = (400, []) := by
  intro req db h
  rcases register_patient_validates req db with h400 | ⟨hp, hn, he⟩
  · exact h400
  · rcases h with h | h | h <;> simp_all

/-- Closed instance of the amended C7 at a five-digit phone, discharging the
invalid-field hypothesis. -/
theorem register_rejects_invalid_input_witness :
    optionValid shortPhoneReq.phone validate_phone = false ∧
    register_patient shortPhoneReq happyOracle = (400, []) :=
  ⟨by decide,
    register_rejects_invalid_input shortPhoneReq happyOracle (.inl (by decide))⟩

/-- Helper: popping a key removes every binding of it. -/
theorem dictGet_dictPop (k : String) (d : Row) : dictGet k (dictPop k d) = none := by
  have h : (d.filter (fun kv => decide (kv.1 ≠ k))).find?
      (fun kv => decide (kv.1 = k)) = none := by
    apply List.find?_eq_none.mpr
    intro x hx
    have hmem := (List.mem_filter.mp hx).2
    simp only [decide_eq_true_eq] at hmem ⊢
    exact hmem
  simp [dictGet, dictPop, h]

/-- C10: a successful credential check returns the stored row with its
credential hash removed: no pin key for patients, no password key for
doctors. -/
theorem verify_credentials_strip_secret :
    ∀ (hash : String → String) (patients doctors : List Row)
      (email pin licenseId password : String),
      (∀ p, UserDB.verify_patient_pin hash patients email pin = some p →
        dictGet "pin" p = none) ∧
      (∀ d, UserDB.verify_doctor_password hash doctors licenseId password = some d →
        dictGet "password" d = none) := by
  intro hash patients doctors email pin licenseId password
  constructor
  · intro p hp
    unfold UserDB.verify_patient_pin at hp
    split at hp
    · exact absurd hp (by simp)
    · split at hp
      · obtain rfl := Option.some.inj hp
        exact dictGet_dictPop _ _
      · exact absurd hp (by simp)
  · intro d hd
    unfold UserDB.verify_doctor_password at hd
    split at hd
    · exact absurd hd (by simp)
    · split at hd
      · obtain rfl := Option.some.inj hd
        exact dictGet_dictPop _ _
      · exact absurd hd (by simp)

/-- Closed instance of C10: concrete logins succeed and the returned rows
carry no pin and no password key. -/
theorem verify_credentials_strip_secret_witness :
    UserDB.verify_patient_pin exHash exPatients "a@b.co" "123456" =
      some [("id", "p1"), ("email", "a@b.co"), ("is_active", "TRUE")] ∧
    dictGet "pin" [(("id" : String), ("p1" : String)), ("email", "a@b.co"),
      ("is_active", "TRUE")] = none ∧
    UserDB.verify_doctor_password exHash exDoctors "LIC1" "Wachtwoord1" =
      some [("id", "d1"), ("license_id", "LIC1"), ("is_active", "TRUE")] ∧
    dictGet "password" [(("id" : String), ("d1" : String)), ("license_id", "LIC1"),
      ("is_active", "TRUE")] = none :=
  ⟨by decide,
    (verify_credentials_strip_secret exHash exPatients exDoctors
      "a@b.co" "123456" "LIC1" "Wachtwoord1").1 _ (by decide),
    by decide,
    (verify_credentials_strip_secret exHash exPatients exDoctors
      "a@b.co" "123456" "LIC1" "Wachtwoord1").2 _ (by decide)⟩

/-- C8: verify_email_code accepts a row only when the code matches,
the row is unexpired (expiry being creation plus ten minutes), unverified and
under five attempts; a failed call increments the attempts of every pending
row for the email, five recorded attempts block even the correct unexpired
code, and a code checked ten or more minutes after creation is rejected. -/
theorem verify_email_code_spec :
    ∀ (st : List EmailVerification) (email code : String) (now : Nat),
      (∀ v, (UserDB.verify_email_code email code now st).1 = some v →
        v ∈ st ∧ v.email = email ∧ v.code = code ∧ now < v.expiresAt ∧
          v.verified = false ∧ v.attempts < 5) ∧
      ((UserDB.verify_email_code email code now st).1 = none →
        ∀ v ∈ st, v.email = email → v.verified = false →
          {v with attempts := v.attempts + 1} ∈
            (UserDB.verify_email_code email code now st).2) ∧
      ((∀ v ∈ st, v.email = email → 5 ≤ v.attempts) →
        (UserDB.verify_email_code email code now st).1 = none) ∧
      (∀ (hash : String → String) (vid : String) (t : Nat) (pin badCode : String),
        t + 10 ≤ now →
        (UserDB.verify_email_code email badCode now
          (UserDB.create_email_verification hash vid t email code pin st)).1 =
          none) := by
  intro st email code now
  refine ⟨?_, ?_, ?_, ?_⟩
  · intro v hv
    unfold UserDB.verify_email_code at hv
    split at hv
    case h_1 w hw =>
      obtain rfl := Option.some.inj hv
      have hmem := List.mem_of_find?_eq_some hw
      have hmatch := List.find?_some hw
      unfold verifyMatch at hmatch
      simp only [Bool.and_eq_true, decide_eq_true_eq, Bool.not_eq_true'] at hmatch
      refine ⟨hmem, ?_, ?_, ?_, ?_, ?_⟩ <;> tauto
    case h_2 => exact absurd hv (by simp)
  · intro hnone v hmem hemail hunv
    unfold UserDB.verify_email_code at hnone ⊢
    split at hnone
    case h_1 => exact absurd hnone (by simp)
    case h_2 hfind =>
      have heq : (fun w : EmailVerification =>
          if w.email = email ∧ w.verified = false then
            {w with attempts := w.attempts + 1}
          else w) v = {v with attempts := v.attempts + 1} := by
        simp [hemail, hunv]
      exact heq ▸ List.mem_map_of_mem _ hmem
  · intro hall
    unfold UserDB.verify_email_code
    have hfind : st.find? (verifyMatch email code now) = none := by
      apply List.find?_eq_none.mpr
      intro v hv hm
      unfold verifyMatch at hm
      simp only [Bool.and_eq_true, decide_eq_true_eq, Bool.not_eq_true'] at hm
      have h5 : 5 ≤ v.attempts := hall v hv (by tauto)
      have hlt : v.attempts < 5 := by tauto
      omega
    rw [hfind]
  · intro hash vid t pin badCode hexp
    unfold UserDB.verify_email_code
    have hfind : (UserDB.create_email_verification hash vid t email code pin st).find?
        (verifyMatch email badCode now) = none := by
      apply List.find?_eq_none.mpr
      intro v hv hm
      unfold verifyMatch at hm
      simp only [Bool.and_eq_true, decide_eq_true_eq, Bool.not_eq_true'] at hm
      unfold UserDB.create_email_verification at hv
      rcases List.mem_append.mp hv with hold | hnew
      · have hne := (List.mem_filter.mp hold).2
        simp only [decide_eq_true_eq] at hne
        exact absurd (by tauto : v.email = email) hne
      · obtain rfl := List.mem_singleton.mp hnew
        have hlt : now < t + 10 := by tauto
        omega
    rw [hfind]

/-- Closed instance of C8: five failed attempts recorded, the correct and
unexpired code is still rejected. -/
theorem verify_email_code_spec_witness :
    (∀ v ∈ exExhausted, v.email = "e@x.co" → 5 ≤ v.attempts) ∧
    (UserDB.verify_email_code "e@x.co" "111222" 5 exExhausted).1 = none :=
  ⟨by decide,
    (verify_email_code_spec exExhausted "e@x.co" "111222" 5).2.2.1 (by decide)⟩

/-- C9 counterexample: with two active consents for the same doctor-patient
pair, revoking one marks it inactive yet the patient still appears in the
doctor's assignment list, because the second consent keeps the join alive. -/
theorem revoked_patient_still_listed :
    (PatientReportDB.revoke_consent dupConsentState "c1").1.consents =
      [⟨"c1", "p1", "d1", false⟩, ⟨"c2", "p1", "d1", true⟩] ∧
    (PatientReportDB.get_assignments_by_doctor_id
        (PatientReportDB.revoke_consent dupConsentState "c1").1 "d1").any
      (fun r => decide (r.patientId = "p1")) = true := by
  decide

/-- C9 amended: every row of get_assignments_by_doctor_id is backed by an
active consent of that doctor for the row's patient, and once revoke_consent
deactivates the only active consent of the pair the patient no longer appears
in the doctor's list. -/
theorem assignments_require_active_consent :
    ∀ (st : ConsentState) (d : String),
      (∀ r ∈ PatientReportDB.get_assignments_by_doctor_id st d,
        r.doctorId = d ∧ ∃ c ∈ st.consents,
          c.active = true ∧ c.doctorId = d ∧ c.patientId = r.patientId) ∧
      (∀ (cid p : String),
        (∀ c ∈ st.consents, c.active = true → c.doctorId = d → c.patientId = p →
          c.id = cid) →
        ∀ r ∈ PatientReportDB.get_assignments_by_doctor_id
            (PatientReportDB.revoke_consent st cid).1 d,
          r.patientId ≠ p) := by
  have hbase : ∀ (st : ConsentState) (d : String),
      ∀ r ∈ PatientReportDB.get_assignments_by_doctor_id st d,
        r.doctorId = d ∧ ∃ c ∈ st.consents,
          c.active = true ∧ c.doctorId = d ∧ c.patientId = r.patientId := by
    intro st d r hr
    unfold PatientReportDB.get_assignments_by_doctor_id at hr
    obtain ⟨a, ha, hrow⟩ := List.mem_flatMap.mp hr
    obtain ⟨hamem, had⟩ := List.mem_filter.mp ha
    simp only [decide_eq_true_eq] at had
    obtain ⟨c, hc, hceq⟩ := List.mem_map.mp hrow
    obtain ⟨hcmem, hcpred⟩ := List.mem_filter.mp hc
    simp only [Bool.and_eq_true, decide_eq_true_eq] at hcpred
    subst hceq
    exact ⟨had, c, hcmem, hcpred.2, by rw [hcpred.1.1, had], hcpred.1.2⟩
  intro st d
  refine ⟨hbase st d, ?_⟩
  intro cid p huniq r hr hrp
  obtain ⟨-, c', hc'mem, hc'act, hc'd, hc'p⟩ := hbase _ d r hr
  rw [hrp] at hc'p
  simp only [PatientReportDB.revoke_consent] at hc'mem
  obtain ⟨c, hcmem, hceq⟩ := List.mem_map.mp hc'mem
  by_cases hid : c.id = cid
  · rw [if_pos hid] at hceq
    rw [← hceq] at hc'act
    exact absurd hc'act (by simp)
  · rw [if_neg hid] at hceq
    subst hceq
    exact hid (huniq c hcmem hc'act hc'd hc'p)

/-- Closed instance of the amended C9: after revoking the only consent of the
pair, the patient is gone from the doctor's assignment list. -/
theorem assignments_require_active_consent_witness :
    (∀ c ∈ soloConsentState.consents, c.active = true → c.doctorId = "d1" →
      c.patientId = "p1" → c.id = "c1") ∧
    (∀ r ∈ PatientReportDB.get_assignments_by_doctor_id
        (PatientReportDB.revoke_consent soloConsentState "c1").1 "d1",
      r.patientId ≠ "p1") :=
  ⟨by decide,
    (assignments_require_active_consent soloConsentState "d1").2 "c1" "p1" (by decide)⟩

/-- C5: with no step failing, delete_patient removes the patient row and all
of the patient's patient_reports, consents, assignments and (via the looked-up
email) email_verifications rows, keeps every other patient, and returns True
exactly when the patient row existed; when any step of the transaction fails,
the store is left unchanged and False is returned. -/
theorem delete_patient_spec :
    ∀ (db : HealthDB) (pid : String) (fail : Nat → Bool),
      ((∀ i, i < 7 → fail i = false) →
        ((UserDB.delete_patient db pid fail).2 = true ↔
          ∃ p ∈ db.patients, p.id = pid) ∧
        (∀ p ∈ (UserDB.delete_patient db pid fail).1.patients, p.id ≠ pid) ∧
        (∀ r ∈ (UserDB.delete_patient db pid fail).1.patient_reports,
          r.patientId ≠ pid) ∧
        (∀ c ∈ (UserDB.delete_patient db pid fail).1.consents, c.patientId ≠ pid) ∧
        (∀ a ∈ (UserDB.delete_patient db pid fail).1.assignments,
          a.patientId ≠ pid) ∧
        (∀ p ∈ db.patients, p.id ≠ pid →
          p ∈ (UserDB.delete_patient db pid fail).1.patients) ∧
        (∀ p, db.patients.find? (fun q => decide (q.id = pid)) = some p →
          ∀ v ∈ (UserDB.delete_patient db pid fail).1.email_verifications,
            v.email ≠ p.email)) ∧
      ((∃ i, i < 7 ∧ fail i = true ∧
          (i = 4 → (db.patients.find? (fun p => decide (p.id = pid))).isSome = true)) →
        UserDB.delete_patient db pid fail = (db, false)) := by
  intro db pid fail
  constructor
  · intro hok
    have h0 := hok 0 (by omega)
    have h1 := hok 1 (by omega)
    have h2 := hok 2 (by omega)
    have h3 := hok 3 (by omega)
    have h4 := hok 4 (by omega)
    have h5 := hok 5 (by omega)
    have h6 := hok 6 (by omega)
    unfold UserDB.delete_patient
    simp only [h0, h1, h2, h3, h4, h5, h6, Bool.and_false, if_false,
      Bool.false_eq_true]
    refine ⟨?_, ?_, ?_, ?_, ?_, ?_, ?_⟩
    · constructor
      · intro hpos
        have : db.patients.filter (fun p => decide (p.id = pid)) ≠ [] := by
          intro hnil
          rw [hnil] at hpos
          simp at hpos
        obtain ⟨p, hp⟩ := List.exists_mem_of_ne_nil _ this
        obtain ⟨hpmem, hppred⟩ := List.mem_filter.mp hp
        exact ⟨p, hpmem, by simpa using hppred⟩
      · intro ⟨p, hpmem, hpid⟩
        have hp : p ∈ db.patients.filter (fun p => decide (p.id = pid)) :=
          List.mem_filter.mpr ⟨hpmem, by simpa using hpid⟩
        simp only [decide_eq_true_eq]
        exact List.length_pos.mpr (List.ne_nil_of_mem hp)
    · intro p hp
      have := (List.mem_filter.mp hp).2
      simpa using this
    · intro r hr
      have := (List.mem_filter.mp hr).2
      simpa using this
    · intro c hc
      have := (List.mem_filter.mp hc).2
      simpa using this
    · intro a ha
      have := (List.mem_filter.mp ha).2
      simpa using this
    · intro p hpmem hne
      exact List.mem_filter.mpr ⟨hpmem, by simpa using hne⟩
    · intro p hfind v hv
      simp only [hfind] at hv
      have := (List.mem_filter.mp hv).2
      simpa using this
  · rintro ⟨i, hi7, hfi, hi4⟩
    unfold UserDB.delete_patient
    by_cases f0 : fail 0 = true
    · rw [if_pos f0]
    rw [if_neg f0]
    by_cases f1 : fail 1 = true
    · rw [if_pos f1]
    rw [if_neg f1]
    by_cases f2 : fail 2 = true
    · rw [if_pos f2]
    rw [if_neg f2]
    by_cases f3 : fail 3 = true
    · rw [if_pos f3]
    rw [if_neg f3]
    by_cases f4 : ((db.patients.find? (fun p => decide (p.id = pid))).isSome &&
        fail 4) = true
    · rw [if_pos f4]
    rw [if_neg f4]
    by_cases f5 : fail 5 = true
    · rw [if_pos f5]
    rw [if_neg f5]
    by_cases f6 : fail 6 = true
    · rw [if_pos f6]
    rw [if_neg f6]
    exfalso
    interval_cases i
    · exact f0 hfi
    · exact f1 hfi
    · exact f2 hfi
    · exact f3 hfi
    · exact f4 (by rw [hi4 rfl, hfi]; rfl)
    · exact f5 hfi
    · exact f6 hfi

/-- Closed instance of C5 at a failure-free run on a one-patient store: the
deletion reports success and the patient row and related rows are gone. -/
theorem delete_patient_spec_witness :
    (∀ i, i < 7 → exNoFail i = false) ∧
    ((UserDB.delete_patient exDb5 "p1" exNoFail).2 = true ↔
      ∃ p ∈ exDb5.patients, p.id = "p1") ∧
    UserDB.delete_patient exDb5 "p1" exNoFail =
      ({ patients := [], patient_reports := [], consents := [],
         assignments := [], email_verifications := [] }, true) :=
  ⟨fun _ _ => rfl,
    ((delete_patient_spec exDb5 "p1" exNoFail).1 (fun _ _ => rfl)).1,
    by decide⟩

end HealthForge
